import Mathlib

/-!
# Verification of the lcu-gopher LCU client core

Shallow embedding of `client.go` from the `Its-Haze/lcu-gopher` repository:
the subscription registry, the WAMP-like event router (`Subscribe`,
`Unsubscribe`, `handleEvent`, `listenForEvents`), the `Disconnect` lifecycle
step, the debug-mode body handling of `Request`, and the lockfile credential
parser (`findCredentialsFromLockfile`).

Decoded JSON values (Go `interface{}` after `encoding/json` decoding) are
modelled by `JsonVal`; Go's dynamic type assertions `x.(string)` /
`x.(map[string]interface{})` are modelled by pattern matches, with the
unchecked (panicking) form made explicit in the result type of `handleEvent`.
-/

namespace LcuGopher

/-- A decoded JSON value, as Go's `encoding/json` produces into `interface{}`.
Numbers decode to `float64` in Go; the frames this client inspects only ever
compare the leading opcode against the integer literal `8`, so numbers are
carried as integers here. -/
inductive JsonVal where
  | num (n : Int)
  | str (s : String)
  | bool (b : Bool)
  | null
  | arr (elems : List JsonVal)
  | obj (fields : List (String × JsonVal))

/-- Go map indexing `m[k]` on a decoded JSON object: `some v` when the key is
present, `none` when absent (Go yields the `nil` interface value). -/
def objGet (fields : List (String × JsonVal)) (k : String) : Option JsonVal :=
  (fields.find? (fun p => p.1 == k)).map (fun p => p.2)

/-- The `Event` struct of `client.go`. -/
structure Event where
  eventType : String
  uri : String
  data : JsonVal

/-- A wrapped handler as stored in `Client.handlers`: `Subscribe` wraps the
user handler (identified here by `hid`) together with the filter list
`eventTypes` it closed over. -/
structure HandlerW where
  hid : Nat
  filters : List String
  deriving DecidableEq, Repr

/-- The `validEventTypes` set of `client.go` (a `map[string]bool` used only
for membership tests). -/
def validEventTypes : List String := ["Create", "Update", "Delete"]

/-! ## The subscription registry

`Client.handlers` is a Go `map[string][]EventHandler`.  It is modelled as an
association list from topic key to the ordered slice of wrapped handlers;
`regGet` is map indexing (a missing key reads as the nil slice), `regAppend`
is `m[k] = append(m[k], h)`, and `regDelete` is `delete(m, k)`. -/

/-- `Client.handlers`: topic key to ordered wrapped-handler slice. -/
abbrev Registry := List (String × List HandlerW)

/-- `m[k]` on the handlers map: the slice under `k`, nil (empty) if absent.
The registry never holds two entries for one key (`regAppend` extends the
existing entry), so taking the first entry is the map lookup. -/
def regGet (r : Registry) (k : String) : List HandlerW :=
  match r with
  | [] => []
  | p :: rest => if p.1 == k then p.2 else regGet rest k

/-- `m[k] = append(m[k], h)` on the handlers map: extend the entry for `k`,
creating it if absent. -/
def regAppend (r : Registry) (k : String) (h : HandlerW) : Registry :=
  match r with
  | [] => [(k, [h])]
  | p :: rest =>
    if p.1 == k then (p.1, p.2 ++ [h]) :: rest
    else p :: regAppend rest k h

/-- `delete(m, k)` on the handlers map. -/
def regDelete (r : Registry) (k : String) : Registry :=
  r.filter (fun p => p.1 != k)

/-! ## Client state and the WebSocket send path -/

/-- A wire message `[]interface{}{opcode, uri}` as sent by
`sendWebSocketMessage` (opcode 5 subscribe, 6 unsubscribe). -/
abbrev WireMsg := Int × String

/-- The mutable state of a `Client` that the router and lifecycle methods
touch: the handlers registry, whether `wsConn` is non-nil, the ordered log of
wire messages written to the socket, and whether the `done` channel has been
closed. -/
structure ClientState where
  handlers : Registry
  wsConnected : Bool
  sentMessages : List WireMsg
  doneClosed : Bool
  deriving DecidableEq, Repr

/-- `sendWebSocketMessage`: errors (returns `false`) when `wsConn == nil`,
otherwise writes the JSON message to the socket and succeeds. -/
def sendWebSocketMessage (s : ClientState) (m : WireMsg) : ClientState × Bool :=
  if s.wsConnected then
    ({ s with sentMessages := s.sentMessages ++ [m] }, true)
  else
    (s, false)

/-! ## Subscribe / Unsubscribe -/

/-- The wrapper closure built inside `Subscribe`: it scans `eventTypes` in
order and fires the user handler on the first match, otherwise does nothing.
`true` means the underlying user handler is invoked. -/
def wrappedHandlerFires : List String → Event → Bool
  | [], _ => false
  | t :: rest, event =>
    if event.eventType == t then true else wrappedHandlerFires rest event

/-- Whether a registered wrapped handler fires the user handler on `event`. -/
def HandlerW.fires (w : HandlerW) (event : Event) : Bool :=
  wrappedHandlerFires w.filters event

/-- `Client.Subscribe(endpoint, handler, eventTypes...)`.  Returns the new
state and `true` for a nil error.  Validation happens before any mutation;
on success the wrapper is appended under both `endpoint` and
`"OnJsonApiEvent"` and a `[5, uri]` message is sent for each of the two, in
that order, stopping at the first send failure. -/
def subscribe (s : ClientState) (endpoint : String) (hid : Nat)
    (eventTypes : List String) : ClientState × Bool :=
  if eventTypes.isEmpty then
    (s, false)
  else if eventTypes.any (fun t => !(validEventTypes.contains t)) then
    (s, false)
  else
    let wrappedHandler : HandlerW := ⟨hid, eventTypes⟩
    let r1 := regAppend s.handlers endpoint wrappedHandler
    let r2 := regAppend r1 "OnJsonApiEvent" wrappedHandler
    let s1 := { s with handlers := r2 }
    let (s2, ok1) := sendWebSocketMessage s1 (5, endpoint)
    if ok1 then
      let (s3, ok2) := sendWebSocketMessage s2 (5, "OnJsonApiEvent")
      (s3, ok2)
    else
      (s2, false)

/-- `Client.Unsubscribe(endpoint)`: delete the handlers entry for
`endpoint`, then send the WAMP `[6, endpoint]` unsubscribe message. -/
def unsubscribe (s : ClientState) (endpoint : String) : ClientState × Bool :=
  let s1 := { s with handlers := regDelete s.handlers endpoint }
  sendWebSocketMessage s1 (6, endpoint)

/-! ## Disconnect -/

/-- Result of `Disconnect`: Go's `close` on an already-closed channel panics,
so the call either completes (returning a nil error and the new state) or
panics. -/
inductive DisconnectResult where
  | ok (s : ClientState)
  | panicked
  deriving DecidableEq, Repr

/-- `Client.Disconnect`: `close(c.done)` first — which panics if `done` is
already closed — then close and nil out `wsConn`, close the logger, and
return nil. -/
def disconnect (s : ClientState) : DisconnectResult :=
  if s.doneClosed then
    .panicked
  else
    .ok { s with doneClosed := true, wsConnected := false }

/-! ## The inbound event path: `handleEvent` and the listener loop -/

/-- What `handleEvent` does with a decoded frame.  The early `return`s on the
checked assertions (`len < 3`, non-string second element, non-object third
element) drop the frame; the *unchecked* assertions
`eventData["eventType"].(string)` and `eventData["uri"].(string)` panic when
the key is absent or the value is not a string; otherwise the listed wrapped
handlers are invoked (each as `go handler(event)`) with the constructed
event. -/
inductive HandleResult where
  | dropped
  | panicked
  | dispatched (invoked : List HandlerW) (event : Event)

/-- Go's checked assertion `v.(string)` on the value of a JSON-object field:
`some` exactly when the field is present and holds a string.  Used to model
the *unchecked* `.(string)` in `handleEvent`, where the `none` case is a
panic. -/
def asString : Option JsonVal → Option String
  | some (.str s) => some s
  | _ => none

/-- The checked assertion `message[1].(string)` succeeding: the element is
present and is a string. -/
def isStrVal : Option JsonVal → Bool
  | some (.str _) => true
  | _ => false

/-- The checked assertion `message[2].(map[string]interface{})` succeeding:
the element is present and is a JSON object. -/
def isObjVal : Option JsonVal → Bool
  | some (.obj _) => true
  | _ => false

/-- The opcode test of `listenForEvents`: `message[0]` asserts to a number
(`float64`) and that number is 8 (the EVENT opcode). -/
def isEventOpcode : Option JsonVal → Bool
  | some (.num n) => n == 8
  | _ => false

/-- `Client.handleEvent(message)` from `client.go`.  `reg` is the handlers
registry read under `eventMux`. -/
def handleEvent (reg : Registry) (message : List JsonVal) : HandleResult :=
  if message.length < 3 then
    .dropped
  else
    match message.get? 1 with
    | some (.str eventName) =>
      match message.get? 2 with
      | some (.obj eventData) =>
        match asString (objGet eventData "eventType"),
              asString (objGet eventData "uri") with
        | some et, some uri =>
          let event : Event := ⟨et, uri, (objGet eventData "data").getD .null⟩
          let handlers :=
            if eventName == "OnJsonApiEvent" then
              regGet reg event.uri ++ regGet reg "/"
            else
              regGet reg eventName
          .dispatched handlers event
        | _, _ => .panicked
      | _ => .dropped
    | _ => .dropped

/-- Outcome of one iteration of the `listenForEvents` loop on a frame that
was read successfully from the socket: either the loop proceeds to the next
frame, or the listener goroutine ends (a panic inside the iteration is
recovered by the deferred function, which logs it — and then the goroutine
returns, so no further frame is ever processed). -/
inductive ListenStep where
  | continues
  | terminated
  deriving DecidableEq, Repr

/-- The raw event that `listenForEvents` hands to every `"OnJsonApiEvent"`
handler for any non-empty frame, before opcode-specific processing. -/
def rawEvent (message : List JsonVal) : Event :=
  ⟨"WebSocketMessage", "OnJsonApiEvent", .arr message⟩

/-- One iteration of the `listenForEvents` loop body on a successfully read
frame: empty frames are skipped; the raw event is dispatched to the
catch-all handlers (in fresh goroutines, which cannot take the listener
down); then, when the first element is the number 8, `handleEvent` runs in
the listener goroutine itself, so a panic there terminates the listener. -/
def listenStepFrame (reg : Registry) (message : List JsonVal) : ListenStep :=
  if message.isEmpty then
    .continues
  else if isEventOpcode (message.get? 0) then
    match handleEvent reg message with
    | .panicked => .terminated
    | _ => .continues
  else
    .continues

/-! ## `Request`: debug-mode body buffering

`Request(method, endpoint, body)` builds the request with
`http.NewRequest(method, reqURL, body)` — which captures the `body` reader —
and only then, in debug mode, drains that same reader with `io.ReadAll` to
log it, rebinding the *local variable* `body` to a fresh reader.  The
response side mutates `resp.Body` in place, which does reach the caller.
Readers are modelled with explicit positions so this aliasing is visible. -/

/-- A byte string (the contents of an `io.Reader` body or of a file). -/
abbrev Bytes := List Char

/-- An `io.Reader` over a byte string: content plus the consumed prefix
length. -/
structure Reader where
  content : Bytes
  pos : Nat

/-- A fresh reader over `s` (`bytes.NewReader` / `strings.NewReader`). -/
def Reader.new (s : Bytes) : Reader := ⟨s, 0⟩

/-- `io.ReadAll`: everything remaining, leaving the reader exhausted. -/
def Reader.readAll (r : Reader) : Bytes × Reader :=
  (r.content.drop r.pos, { r with pos := r.content.length })

/-- The externally observable effects of one `Client.Request` call. -/
structure RequestTrace where
  sentBody : Bytes
  loggedReqBody : Option Bytes
  callerRespBody : Bytes
  loggedRespBody : Option Bytes
  deriving DecidableEq, Repr

/-- The body-handling data flow of `Client.Request`: `body` is the reader
passed by the caller (`none` for a nil body) and `respBody` the payload the
server answers with.  Mirrors the source line by line:
`http.NewRequest` captures the caller's reader as `req.Body`; the debug
branch drains that same reader via `io.ReadAll(body)` and rebinds only the
local `body`; `httpClient.Do(req)` transmits whatever `req.Body` still
yields; the debug branch then drains `resp.Body` and replaces it with
`io.NopCloser(bytes.NewReader(bodyBytes))`, which is what the caller
reads. -/
def requestModel (debug : Bool) (body : Option Reader) (respBody : Bytes) :
    RequestTrace :=
  let reqBody := body
  let (loggedReq, reqBody, _localBody) :=
    if debug then
      match body with
      | some r =>
        let (bodyBytes, rDrained) := r.readAll
        (some bodyBytes, some rDrained, some (Reader.new bodyBytes))
      | none => (none, reqBody, (none : Option Reader))
    else
      (none, reqBody, body)
  let sent :=
    match reqBody with
    | some r => (r.readAll).1
    | none => []
  let respReader := Reader.new respBody
  let (loggedResp, respReader) :=
    if debug then
      let (bodyBytes, _) := respReader.readAll
      (some bodyBytes, Reader.new bodyBytes)
    else
      ((none : Option Bytes), respReader)
  { sentBody := sent
    loggedReqBody := loggedReq
    callerRespBody := (respReader.readAll).1
    loggedRespBody := loggedResp }

/-! ## Lockfile credential discovery -/

/-- The `Credentials` struct (port is a Go `int`). -/
structure Credentials where
  port : Int
  password : Bytes
  protocol : Bytes
  deriving DecidableEq, Repr

/-- Go's `strings.Split(s, sep)` for a one-character separator: the pieces
of `s` between occurrences of `sep`.  `Split("", sep)` is `[""]`. -/
def splitOnChar (sep : Char) : Bytes → List Bytes
  | [] => [[]]
  | c :: rest =>
    if c == sep then
      [] :: splitOnChar sep rest
    else
      match splitOnChar sep rest with
      | piece :: pieces => (c :: piece) :: pieces
      | [] => [[c]]

/-- Go's `strconv.Atoi`: an optional leading `+` or `-` sign followed by at
least one decimal digit, rejecting anything else and values outside the
64-bit `int` range. -/
def goAtoi (s : Bytes) : Option Int :=
  let (sign, digits) :=
    match s with
    | '-' :: rest => ((-1 : Int), rest)
    | '+' :: rest => ((1 : Int), rest)
    | _ => ((1 : Int), s)
  if digits.isEmpty then none
  else if digits.all Char.isDigit then
    let n : Nat := digits.foldl (fun acc c => acc * 10 + (c.toNat - 48)) 0
    let v : Int := sign * n
    if -(2 ^ 63) ≤ v ∧ v ≤ 2 ^ 63 - 1 then some v else none
  else none

/-- Parsing one candidate lockfile's contents, as in the body of the path
loop of `findCredentialsFromLockfile`: `strings.Split(data, ":")` must give
exactly five parts and `strconv.Atoi(parts[2])` must succeed; then
`Credentials{Port: port, Password: parts[3], Protocol: parts[4]}`. -/
def parseLockfile (data : Bytes) : Option Credentials :=
  match splitOnChar ':' data with
  | [_name, _pid, portStr, password, protocol] =>
    match goAtoi portStr with
    | some port => some ⟨port, password, protocol⟩
    | none => none
  | _ => none

/-- The candidate loop of `findCredentialsFromLockfile` over the possible
paths: each candidate is `none` when `os.ReadFile` fails, `some data`
otherwise; a read failure or a parse failure moves on to the next candidate,
and the first successful parse wins. -/
def findCredentialsFromLockfile : List (Option Bytes) → Option Credentials
  | [] => none
  | candidate :: rest =>
    match candidate with
    | none => findCredentialsFromLockfile rest
    | some data =>
      match parseLockfile data with
      | some creds => some creds
      | none => findCredentialsFromLockfile rest

/-! ## Registry lemmas -/

theorem regGet_regAppend_self (r : Registry) (k : String) (h : HandlerW) :
    regGet (regAppend r k h) k = regGet r k ++ [h] := by
  induction r with
  | nil => simp [regAppend, regGet]
  | cons p rest ih =>
    by_cases hpk : p.1 = k
    · simp [regAppend, regGet, hpk]
    · simp [regAppend, regGet, hpk, ih]

theorem regGet_regAppend_ne (r : Registry) (k k' : String) (h : HandlerW)
    (hne : k' ≠ k) : regGet (regAppend r k h) k' = regGet r k' := by
  have hne' : k ≠ k' := Ne.symm hne
  induction r with
  | nil => simp [regAppend, regGet, hne']
  | cons p rest ih =>
    by_cases hpk : p.1 = k
    · simp [regAppend, regGet, hpk, hne']
    · by_cases hpk' : p.1 = k'
      · simp [regAppend, regGet, hpk, hpk', hne, hne']
      · simp [regAppend, regGet, hpk, hpk', ih]

theorem regGet_regDelete_self (r : Registry) (k : String) :
    regGet (regDelete r k) k = [] := by
  induction r with
  | nil => simp [regDelete, regGet]
  | cons p rest ih =>
    by_cases hpk : p.1 = k
    · simpa [regDelete, hpk] using ih
    · simpa [regDelete, regGet, hpk] using ih

theorem regGet_regDelete_ne (r : Registry) (k k' : String) (hne : k' ≠ k) :
    regGet (regDelete r k) k' = regGet r k' := by
  have hne' : k ≠ k' := Ne.symm hne
  induction r with
  | nil => simp [regDelete, regGet]
  | cons p rest ih =>
    by_cases hpk : p.1 = k
    · simpa [regDelete, regGet, hpk, hne'] using ih
    · by_cases hpk' : p.1 = k'
      · simp [regDelete, regGet, List.filter_cons, hpk, hpk', hne]
      · simpa [regDelete, regGet, List.filter_cons, hpk, hpk', hne] using ih

/-- Definitional reduction of `handleEvent` on a frame whose second and
third elements pass the checked assertions: everything that remains is the
pair of unchecked field assertions and the handler resolution. -/
theorem handleEvent_cons3 (reg : Registry) (m0 : JsonVal) (en : String)
    (fields : List (String × JsonVal)) (rest : List JsonVal) :
    handleEvent reg (m0 :: .str en :: .obj fields :: rest) =
      match asString (objGet fields "eventType"), asString (objGet fields "uri") with
      | some et, some uri =>
        .dispatched
          (if en == "OnJsonApiEvent" then
            regGet reg uri ++ regGet reg "/"
          else regGet reg en)
          ⟨et, uri, (objGet fields "data").getD .null⟩
      | _, _ => .panicked := rfl

/-! ## C4: invalid filter sets are rejected without any effect -/

/-- C4: every `Subscribe` call whose `eventTypes` list is empty or contains
a value outside Create/Update/Delete returns an error and leaves the client
state — the handler registry under every key, and the log of sent wire
messages — completely unchanged. -/
theorem subscribe_rejects_invalid_filter (s : ClientState) (endpoint : String)
    (hid : Nat) (eventTypes : List String)
    (h : eventTypes = [] ∨ ∃ t ∈ eventTypes, validEventTypes.contains t = false) :
    subscribe s endpoint hid eventTypes = (s, false) := by
  rcases h with h | ⟨t, ht, hbad⟩
  · simp [subscribe, h]
  · have hne : eventTypes.isEmpty = false := by
      cases eventTypes with
      | nil => cases ht
      | cons a l => rfl
    have hany : eventTypes.any (fun t => !(validEventTypes.contains t)) = true := by
      rw [List.any_eq_true]
      exact ⟨t, ht, by simpa using hbad⟩
    unfold subscribe
    rw [hne, hany]
    rfl

/-- Witness for C4 at a concrete invalid filter value. -/
theorem subscribe_rejects_invalid_filter_witness :
    subscribe ⟨[], true, [], false⟩ "/lol-gameflow/v1/session" 0 ["Updated"] =
      (⟨[], true, [], false⟩, false) :=
  subscribe_rejects_invalid_filter _ _ _ _
    (Or.inr ⟨"Updated", by simp, by rfl⟩)

/-! ## C2: Disconnect is not idempotent -/

/-- C2 counterexample: after one successful `Disconnect` (which closes the
`done` channel), the next `Disconnect` call does not complete without error
— `close(c.done)` on the already-closed channel panics. -/
theorem disconnect_repeat_counterexample :
    disconnect ⟨[], true, [], false⟩ = .ok ⟨[], false, [], true⟩ ∧
    disconnect ⟨[], false, [], true⟩ = .panicked :=
  ⟨rfl, rfl⟩

/-- C2 amended: the first `Disconnect` on a client whose `done` channel is
still open completes without error (closing the channel and the socket),
but every subsequent call panics when it re-closes the already-closed
channel, so `Disconnect` is not idempotent. -/
theorem disconnect_first_ok_then_panics :
    (∀ s : ClientState, s.doneClosed = false →
      disconnect s = .ok { s with doneClosed := true, wsConnected := false }) ∧
    (∀ s s' : ClientState, disconnect s = .ok s' → disconnect s' = .panicked) := by
  constructor
  · intro s h
    simp [disconnect, h]
  · intro s s' h
    unfold disconnect at h ⊢
    by_cases hd : s.doneClosed
    · simp [hd] at h
    · simp [hd] at h
      rw [← h]
      simp
/-- Witness for C2 amended at a concrete client state. -/
theorem disconnect_first_ok_then_panics_witness :
    disconnect ⟨[], true, [], false⟩ = .ok ⟨[], false, [], true⟩ ∧
    disconnect ⟨[], false, [], true⟩ = .panicked :=
  ⟨disconnect_first_ok_then_panics.1 ⟨[], true, [], false⟩ rfl,
   disconnect_first_ok_then_panics.2 ⟨[], true, [], false⟩ ⟨[], false, [], true⟩ rfl⟩

/-! ## C7: filtered firing of wrapped handlers -/

/-- C7: a wrapped handler built from filter list F fires its user handler
exactly when the delivered event's type is an element of F; in particular a
registration whose filters were validated against Create/Update/Delete never
fires for the synthetic raw type "WebSocketMessage". -/
theorem wrapped_handler_fires_iff :
    (∀ (filters : List String) (event : Event),
      wrappedHandlerFires filters event = true ↔ event.eventType ∈ filters) ∧
    (∀ (w : HandlerW) (event : Event),
      (∀ t ∈ w.filters, validEventTypes.contains t = true) →
      event.eventType = "WebSocketMessage" → w.fires event = false) := by
  have main : ∀ (filters : List String) (event : Event),
      wrappedHandlerFires filters event = true ↔ event.eventType ∈ filters := by
    intro filters event
    induction filters with
    | nil => simp [wrappedHandlerFires]
    | cons t rest ih =>
      by_cases h : event.eventType = t
      · simp [wrappedHandlerFires, h]
      · simp [wrappedHandlerFires, h, ih]
  refine ⟨main, ?_⟩
  intro w event hvalid hws
  cases hf : w.fires event with
  | false => rfl
  | true =>
    exfalso
    have hf' : wrappedHandlerFires w.filters event = true := hf
    have hmem : event.eventType ∈ w.filters := (main w.filters event).mp hf'
    have hc := hvalid _ hmem
    rw [hws] at hc
    exact absurd hc (by decide)

/-- Witness for C7 at concrete filter lists and events. -/
theorem wrapped_handler_fires_iff_witness :
    wrappedHandlerFires ["Update"] ⟨"Update", "/lol-gameflow/v1/session", .null⟩ = true ∧
    HandlerW.fires ⟨0, ["Create", "Update", "Delete"]⟩
      ⟨"WebSocketMessage", "OnJsonApiEvent", .null⟩ = false :=
  ⟨(wrapped_handler_fires_iff.1 ["Update"] ⟨"Update", "/lol-gameflow/v1/session", .null⟩).mpr
      (by simp),
   wrapped_handler_fires_iff.2 ⟨0, ["Create", "Update", "Delete"]⟩
      ⟨"WebSocketMessage", "OnJsonApiEvent", .null⟩ (by decide) rfl⟩

/-! ## C5 / C10 / C6: Subscribe and Unsubscribe effects -/

/-- C5: every `Subscribe` call that returns without error has registered the
wrapped handler under both the requested endpoint and the catch-all key
"OnJsonApiEvent", and has sent exactly the subscribe wire messages
`[5, endpoint]` and `[5, "OnJsonApiEvent"]`, in that order. -/
theorem subscribe_success_registers_and_sends (s : ClientState)
    (endpoint : String) (hid : Nat) (eventTypes : List String)
    (hsucc : (subscribe s endpoint hid eventTypes).2 = true) :
    (⟨hid, eventTypes⟩ : HandlerW) ∈
      regGet (subscribe s endpoint hid eventTypes).1.handlers endpoint ∧
    (⟨hid, eventTypes⟩ : HandlerW) ∈
      regGet (subscribe s endpoint hid eventTypes).1.handlers "OnJsonApiEvent" ∧
    (subscribe s endpoint hid eventTypes).1.sentMessages =
      s.sentMessages ++ [(5, endpoint), (5, "OnJsonApiEvent")] := by
  by_cases hemp : eventTypes.isEmpty = true
  · unfold subscribe at hsucc
    rw [hemp] at hsucc
    simp at hsucc
  by_cases hany : eventTypes.any (fun t => !(validEventTypes.contains t)) = true
  · unfold subscribe at hsucc
    rw [Bool.not_eq_true] at hemp
    rw [hemp, hany] at hsucc
    simp at hsucc
  rw [Bool.not_eq_true] at hemp hany
  by_cases hconn : s.wsConnected = true
  · have hres : subscribe s endpoint hid eventTypes =
        ({ s with
            handlers := regAppend (regAppend s.handlers endpoint ⟨hid, eventTypes⟩)
              "OnJsonApiEvent" ⟨hid, eventTypes⟩,
            sentMessages := s.sentMessages ++ [(5, endpoint)] ++ [(5, "OnJsonApiEvent")] },
          true) := by
      unfold subscribe
      rw [hemp, hany]
      simp [sendWebSocketMessage, hconn]
    rw [hres]
    refine ⟨?_, ?_, by simp⟩
    · by_cases he : endpoint = "OnJsonApiEvent"
      · subst he
        rw [regGet_regAppend_self]
        simp
      · rw [regGet_regAppend_ne _ _ _ _ he, regGet_regAppend_self]
        simp
    · rw [regGet_regAppend_self]
      simp
  · exfalso
    rw [Bool.not_eq_true] at hconn
    unfold subscribe at hsucc
    rw [hemp, hany] at hsucc
    simp [sendWebSocketMessage, hconn] at hsucc

/-- Witness for C5 on a connected client. -/
theorem subscribe_success_registers_and_sends_witness :
    (⟨0, ["Update"]⟩ : HandlerW) ∈
      regGet (subscribe ⟨[], true, [], false⟩ "/lol-gameflow/v1/session" 0
        ["Update"]).1.handlers "/lol-gameflow/v1/session" ∧
    (⟨0, ["Update"]⟩ : HandlerW) ∈
      regGet (subscribe ⟨[], true, [], false⟩ "/lol-gameflow/v1/session" 0
        ["Update"]).1.handlers "OnJsonApiEvent" ∧
    (subscribe ⟨[], true, [], false⟩ "/lol-gameflow/v1/session" 0
        ["Update"]).1.sentMessages =
      [] ++ [(5, "/lol-gameflow/v1/session"), (5, "OnJsonApiEvent")] :=
  subscribe_success_registers_and_sends ⟨[], true, [], false⟩
    "/lol-gameflow/v1/session" 0 ["Update"] rfl

/-- C10: when the filters are valid but the WebSocket connection is not
established, `Subscribe` returns an error, yet the wrapped handler stays
registered under both the endpoint and the catch-all key — the registry
mutation precedes the send and is not rolled back — and no wire message is
sent. -/
theorem subscribe_send_failure_keeps_registration (s : ClientState)
    (endpoint : String) (hid : Nat) (eventTypes : List String)
    (hne : eventTypes ≠ [])
    (hvalid : ∀ t ∈ eventTypes, validEventTypes.contains t = true)
    (hconn : s.wsConnected = false) :
    (subscribe s endpoint hid eventTypes).2 = false ∧
    (⟨hid, eventTypes⟩ : HandlerW) ∈
      regGet (subscribe s endpoint hid eventTypes).1.handlers endpoint ∧
    (⟨hid, eventTypes⟩ : HandlerW) ∈
      regGet (subscribe s endpoint hid eventTypes).1.handlers "OnJsonApiEvent" ∧
    (subscribe s endpoint hid eventTypes).1.sentMessages = s.sentMessages := by
  have hemp : eventTypes.isEmpty = false := by
    cases eventTypes with
    | nil => exact absurd rfl hne
    | cons a l => rfl
  have hany : eventTypes.any (fun t => !(validEventTypes.contains t)) = false := by
    rw [List.any_eq_false]
    intro t ht
    simpa using hvalid t ht
  have hres : subscribe s endpoint hid eventTypes =
      ({ s with
          handlers := regAppend (regAppend s.handlers endpoint ⟨hid, eventTypes⟩)
            "OnJsonApiEvent" ⟨hid, eventTypes⟩ },
        false) := by
    unfold subscribe
    rw [hemp, hany]
    simp [sendWebSocketMessage, hconn]
  rw [hres]
  refine ⟨rfl, ?_, ?_, rfl⟩
  · by_cases he : endpoint = "OnJsonApiEvent"
    · subst he
      rw [regGet_regAppend_self]
      simp
    · rw [regGet_regAppend_ne _ _ _ _ he, regGet_regAppend_self]
      simp
  · rw [regGet_regAppend_self]
    simp

/-- Witness for C10 on a disconnected client. -/
theorem subscribe_send_failure_keeps_registration_witness :
    (subscribe ⟨[], false, [], false⟩ "/lol-chat/v1/me" 7 ["Create"]).2 = false ∧
    (⟨7, ["Create"]⟩ : HandlerW) ∈
      regGet (subscribe ⟨[], false, [], false⟩ "/lol-chat/v1/me" 7
        ["Create"]).1.handlers "/lol-chat/v1/me" ∧
    (⟨7, ["Create"]⟩ : HandlerW) ∈
      regGet (subscribe ⟨[], false, [], false⟩ "/lol-chat/v1/me" 7
        ["Create"]).1.handlers "OnJsonApiEvent" ∧
    (subscribe ⟨[], false, [], false⟩ "/lol-chat/v1/me" 7
        ["Create"]).1.sentMessages = [] :=
  subscribe_send_failure_keeps_registration ⟨[], false, [], false⟩
    "/lol-chat/v1/me" 7 ["Create"] (by simp) (by decide) rfl

/-- C6: `Unsubscribe(topic)` on a connected client removes exactly the
registry entry for `topic`, leaves every other key — including the catch-all
"OnJsonApiEvent" entries — unchanged, and sends the single unsubscribe wire
message `[6, topic]` and nothing else. -/
theorem unsubscribe_removes_topic_only (s : ClientState) (topic : String)
    (hconn : s.wsConnected = true) :
    (unsubscribe s topic).2 = true ∧
    regGet (unsubscribe s topic).1.handlers topic = [] ∧
    (∀ k, k ≠ topic →
      regGet (unsubscribe s topic).1.handlers k = regGet s.handlers k) ∧
    (unsubscribe s topic).1.sentMessages = s.sentMessages ++ [(6, topic)] := by
  have hres : unsubscribe s topic =
      ({ s with
          handlers := regDelete s.handlers topic,
          sentMessages := s.sentMessages ++ [(6, topic)] },
        true) := by
    unfold unsubscribe
    simp [sendWebSocketMessage, hconn]
  rw [hres]
  exact ⟨rfl, regGet_regDelete_self _ _,
    fun k hk => regGet_regDelete_ne _ _ _ hk, rfl⟩

/-- Witness for C6: unsubscribing one topic keeps the catch-all registration
made alongside it and sends only `[6, topic]`. -/
theorem unsubscribe_removes_topic_only_witness :
    (unsubscribe
        ⟨[("/lol-gameflow/v1/session", [⟨0, ["Update"]⟩]),
          ("OnJsonApiEvent", [⟨0, ["Update"]⟩])], true,
          [(5, "/lol-gameflow/v1/session"), (5, "OnJsonApiEvent")], false⟩
        "/lol-gameflow/v1/session").2 = true ∧
    regGet (unsubscribe
        ⟨[("/lol-gameflow/v1/session", [⟨0, ["Update"]⟩]),
          ("OnJsonApiEvent", [⟨0, ["Update"]⟩])], true,
          [(5, "/lol-gameflow/v1/session"), (5, "OnJsonApiEvent")], false⟩
        "/lol-gameflow/v1/session").1.handlers "/lol-gameflow/v1/session" = [] ∧
    regGet (unsubscribe
        ⟨[("/lol-gameflow/v1/session", [⟨0, ["Update"]⟩]),
          ("OnJsonApiEvent", [⟨0, ["Update"]⟩])], true,
          [(5, "/lol-gameflow/v1/session"), (5, "OnJsonApiEvent")], false⟩
        "/lol-gameflow/v1/session").1.handlers "OnJsonApiEvent" =
      [⟨0, ["Update"]⟩] ∧
    (unsubscribe
        ⟨[("/lol-gameflow/v1/session", [⟨0, ["Update"]⟩]),
          ("OnJsonApiEvent", [⟨0, ["Update"]⟩])], true,
          [(5, "/lol-gameflow/v1/session"), (5, "OnJsonApiEvent")], false⟩
        "/lol-gameflow/v1/session").1.sentMessages =
      [(5, "/lol-gameflow/v1/session"), (5, "OnJsonApiEvent"),
        (6, "/lol-gameflow/v1/session")] := by
  have h := unsubscribe_removes_topic_only
    ⟨[("/lol-gameflow/v1/session", [⟨0, ["Update"]⟩]),
      ("OnJsonApiEvent", [⟨0, ["Update"]⟩])], true,
      [(5, "/lol-gameflow/v1/session"), (5, "OnJsonApiEvent")], false⟩
    "/lol-gameflow/v1/session" rfl
  refine ⟨h.1, h.2.1, ?_, by simpa using h.2.2.2⟩
  rw [h.2.2.1 "OnJsonApiEvent" (by decide)]
  rfl

/-! ## C1: malformed frames -/

/-- C1 counterexample: the frame `[8, "OnJsonApiEvent", {eventType: 1}]` is
malformed (its object third element has a non-string `eventType` field), yet
processing it does not drop it silently: the unchecked `.(string)` assertion
panics, and the listener loop — whose deferred recover logs the panic and
then returns — terminates instead of proceeding to the next frame. -/
theorem malformed_frame_terminates_listener_counterexample :
    handleEvent []
      [.num 8, .str "OnJsonApiEvent", .obj [("eventType", .num 1)]] = .panicked ∧
    listenStepFrame []
      [.num 8, .str "OnJsonApiEvent", .obj [("eventType", .num 1)]] = .terminated :=
  ⟨rfl, rfl⟩

/-- C1 amended: a frame with fewer than three elements, a non-string second
element, or a non-object third element is dropped silently and the listener
proceeds to the next frame, but a frame whose third element is an object
with a missing or non-string `eventType` or `uri` field makes `handleEvent`
panic, and when such a frame carries the event opcode 8 the listener loop
terminates (after recovering and logging the panic) instead of proceeding. -/
theorem malformed_frame_handling (reg : Registry) (message : List JsonVal) :
    (handleEvent reg message = .dropped → listenStepFrame reg message = .continues) ∧
    (message.length < 3 → handleEvent reg message = .dropped) ∧
    (isStrVal (message.get? 1) = false → handleEvent reg message = .dropped) ∧
    (isStrVal (message.get? 1) = true → isObjVal (message.get? 2) = false →
      handleEvent reg message = .dropped) ∧
    (∀ fields, message.get? 2 = some (.obj fields) →
      (asString (objGet fields "eventType") = none ∨
        asString (objGet fields "uri") = none) →
      3 ≤ message.length → isStrVal (message.get? 1) = true →
      handleEvent reg message = .panicked) ∧
    (handleEvent reg message = .panicked →
      isEventOpcode (message.get? 0) = true →
      listenStepFrame reg message = .terminated) := by
  refine ⟨?_, ?_, ?_, ?_, ?_, ?_⟩
  · intro h
    unfold listenStepFrame
    by_cases he : message.isEmpty
    · simp [he]
    · simp [he, h]
  · intro h
    unfold handleEvent
    rw [if_pos h]
  · intro h
    unfold handleEvent
    by_cases hlen : message.length < 3
    · rw [if_pos hlen]
    · rw [if_neg hlen]
      cases hm1 : message.get? 1 with
      | none => rfl
      | some v =>
        cases v with
        | str s => rw [hm1] at h; simp [isStrVal] at h
        | num n => rfl
        | bool b => rfl
        | null => rfl
        | arr es => rfl
        | obj fs => rfl
  · intro h1 h2
    unfold handleEvent
    by_cases hlen : message.length < 3
    · rw [if_pos hlen]
    · rw [if_neg hlen]
      cases hm1 : message.get? 1 with
      | none => rfl
      | some v =>
        cases v with
        | str s =>
          cases hm2 : message.get? 2 with
          | none => rfl
          | some w =>
            cases w with
            | obj fs => rw [hm2] at h2; simp [isObjVal] at h2
            | num n => rfl
            | str t => rfl
            | bool b => rfl
            | null => rfl
            | arr es => rfl
        | num n => rfl
        | bool b => rfl
        | null => rfl
        | arr es => rfl
        | obj fs => rfl
  · intro fields hm2 hbad hlen h1
    cases message with
    | nil => simp at hlen
    | cons m0 t1 =>
      cases t1 with
      | nil => simp at hlen
      | cons m1 t2 =>
        cases t2 with
        | nil => simp at hlen
        | cons m2 rest =>
          have h1' : isStrVal (some m1) = true := h1
          have hm2' : (some m2 : Option JsonVal) = some (.obj fields) := hm2
          have hm2'' : m2 = .obj fields := by injection hm2'
          subst hm2''
          cases m1 with
          | str en =>
            rw [handleEvent_cons3]
            rcases hbad with hb | hb
            · rw [hb]
            · cases hA : asString (objGet fields "eventType") with
              | none => rfl
              | some et => rw [hb]
          | num n => simp [isStrVal] at h1'
          | bool b => simp [isStrVal] at h1'
          | null => simp [isStrVal] at h1'
          | arr es => simp [isStrVal] at h1'
          | obj fs => simp [isStrVal] at h1'
  · intro hp hop
    cases message with
    | nil => simp [isEventOpcode] at hop
    | cons a l =>
      have hop' : isEventOpcode (some a) = true := hop
      simp [listenStepFrame, hop', hp]

/-- Witness for C1 amended: a too-short frame is dropped and the listener
continues. -/
theorem malformed_frame_handling_witness :
    handleEvent [] [.num 8] = .dropped ∧
    listenStepFrame [] [.num 8] = .continues := by
  have h := malformed_frame_handling [] [.num 8]
  have hd := h.2.1 (by simp)
  exact ⟨hd, h.1 hd⟩

/-! ## C8: dispatch of well-formed event frames -/

/-- C8: for a well-formed event frame `[8, channelName, {eventType, uri,
data}]`, the invoked handlers are exactly those registered under the frame's
own `uri` plus those under the root topic "/" when the channel is the
catch-all "OnJsonApiEvent", and exactly those registered under
`channelName` otherwise; every invoked handler receives the event built
from the frame's `eventType`, `uri` and `data` fields. -/
theorem handle_event_dispatch (reg : Registry) (channelName : String)
    (fields : List (String × JsonVal)) (et uri : String)
    (hET : objGet fields "eventType" = some (.str et))
    (hURI : objGet fields "uri" = some (.str uri)) :
    handleEvent reg [.num 8, .str channelName, .obj fields] =
      .dispatched
        (if channelName = "OnJsonApiEvent" then regGet reg uri ++ regGet reg "/"
          else regGet reg channelName)
        ⟨et, uri, (objGet fields "data").getD .null⟩ := by
  unfold handleEvent
  simp [hET, hURI, asString]

/-- Witness for C8: the spec's example frame reaches exactly the handler
registered under `/lol-gameflow/v1/session`, not the one registered only
under an unrelated topic. -/
theorem handle_event_dispatch_witness :
    handleEvent
      [("/lol-gameflow/v1/session", [⟨0, ["Update"]⟩]),
        ("/unrelated/topic", [⟨1, ["Update"]⟩])]
      [.num 8, .str "OnJsonApiEvent",
        .obj [("eventType", .str "Update"),
          ("uri", .str "/lol-gameflow/v1/session"),
          ("data", .obj [("phase", .str "InProgress")])]] =
      .dispatched [⟨0, ["Update"]⟩]
        ⟨"Update", "/lol-gameflow/v1/session",
          .obj [("phase", .str "InProgress")]⟩ := by
  rw [handle_event_dispatch
    [("/lol-gameflow/v1/session", [⟨0, ["Update"]⟩]),
      ("/unrelated/topic", [⟨1, ["Update"]⟩])]
    "OnJsonApiEvent"
    [("eventType", .str "Update"),
      ("uri", .str "/lol-gameflow/v1/session"),
      ("data", .obj [("phase", .str "InProgress")])]
    "Update" "/lol-gameflow/v1/session" rfl rfl]
  rfl

/-! ## C3: debug-mode tracing consumes the request body -/

/-- C3 (code defect): with debug tracing enabled and a non-nil request body,
the request body is fully buffered and logged, and the response body is
fully buffered, logged, and still delivered in full to the caller; but the
HTTP request itself goes out with an empty body — `http.NewRequest` captured
the very reader that the tracing `io.ReadAll` then drained, and rebinding
the local `body` variable does not reset `req.Body` (despite the source's
comment "Reset body reader for actual request") — so with tracing on, the
payload never reaches the wire, while without tracing it is sent intact. -/
theorem request_debug_consumes_request_body (content respBody : Bytes) :
    (requestModel true (some (Reader.new content)) respBody).sentBody = [] ∧
    (requestModel true (some (Reader.new content)) respBody).loggedReqBody =
      some content ∧
    (requestModel true (some (Reader.new content)) respBody).callerRespBody =
      respBody ∧
    (requestModel true (some (Reader.new content)) respBody).loggedRespBody =
      some respBody ∧
    (requestModel false (some (Reader.new content)) respBody).sentBody = content ∧
    (content ≠ [] →
      (requestModel true (some (Reader.new content)) respBody).sentBody ≠
        content) := by
  refine ⟨?_, ?_, ?_, ?_, ?_, ?_⟩
  · simp [requestModel, Reader.new, Reader.readAll]
  · simp [requestModel, Reader.new, Reader.readAll]
  · simp [requestModel, Reader.new, Reader.readAll]
  · simp [requestModel, Reader.new, Reader.readAll]
  · simp [requestModel, Reader.new, Reader.readAll]
  · intro hne
    simpa [requestModel, Reader.new, Reader.readAll] using fun hc => hne hc

/-- Witness for C3 at a concrete payload: the logged request body is the
full payload but the sent request body is empty. -/
theorem request_debug_consumes_request_body_witness :
    (requestModel true (some (Reader.new "queue-payload".toList))
      "ok-response".toList).sentBody = [] ∧
    (requestModel true (some (Reader.new "queue-payload".toList))
      "ok-response".toList).loggedReqBody = some "queue-payload".toList ∧
    (requestModel true (some (Reader.new "queue-payload".toList))
      "ok-response".toList).sentBody ≠ "queue-payload".toList :=
  ⟨(request_debug_consumes_request_body "queue-payload".toList
      "ok-response".toList).1,
   (request_debug_consumes_request_body "queue-payload".toList
      "ok-response".toList).2.1,
   (request_debug_consumes_request_body "queue-payload".toList
      "ok-response".toList).2.2.2.2.2 (by decide)⟩

/-! ## C9: lockfile parsing -/

/-- C9: parsing a candidate lockfile succeeds exactly when its contents
split on ":" into exactly five fields with an integer third field; on
success it yields the port, password and protocol from fields three to five
(the documented example included); and a candidate that fails to read or to
parse is skipped in favour of the next candidate rather than aborting
discovery. -/
theorem lockfile_parse_exact :
    parseLockfile "LeagueClientUx:1234:54321:abcDEF123:https".toList =
      some ⟨54321, "abcDEF123".toList, "https".toList⟩ ∧
    (∀ data : Bytes, (parseLockfile data).isSome ↔
      ((splitOnChar ':' data).length = 5 ∧
        (goAtoi ((splitOnChar ':' data).getD 2 [])).isSome)) ∧
    (∀ (name pid portStr password protocol data : Bytes) (port : Int),
      splitOnChar ':' data = [name, pid, portStr, password, protocol] →
      goAtoi portStr = some port →
      parseLockfile data = some ⟨port, password, protocol⟩) ∧
    (∀ (data : Bytes) (rest : List (Option Bytes)), parseLockfile data = none →
      findCredentialsFromLockfile (some data :: rest) =
        findCredentialsFromLockfile rest) ∧
    (∀ rest : List (Option Bytes),
      findCredentialsFromLockfile (none :: rest) =
        findCredentialsFromLockfile rest) := by
  refine ⟨by rfl, ?_, ?_, ?_, ?_⟩
  · intro data
    unfold parseLockfile
    rcases hp : splitOnChar ':' data with
      _ | ⟨a, _ | ⟨b, _ | ⟨c, _ | ⟨d, _ | ⟨e, _ | ⟨f, r⟩⟩⟩⟩⟩⟩
    · simp
    · simp
    · simp
    · simp
    · simp
    · cases hg : goAtoi c <;> simp [hg]
    · simp
  · intro name pid portStr password protocol data port hsplit hatoi
    unfold parseLockfile
    rw [hsplit]
    simp [hatoi]
  · intro data rest h
    simp [findCredentialsFromLockfile, h]
  · intro rest
    rfl

/-- Witness for C9: a read failure and a malformed candidate are skipped,
after which the documented example lockfile parses. -/
theorem lockfile_parse_exact_witness :
    parseLockfile "garbage-lockfile".toList = none ∧
    findCredentialsFromLockfile
      [none, some "garbage-lockfile".toList,
        some "LeagueClientUx:1234:54321:abcDEF123:https".toList] =
      some ⟨54321, "abcDEF123".toList, "https".toList⟩ := by
  have h := lockfile_parse_exact
  refine ⟨rfl, ?_⟩
  rw [h.2.2.2.2]
  rw [h.2.2.2.1 "garbage-lockfile".toList
    [some "LeagueClientUx:1234:54321:abcDEF123:https".toList] rfl]
  rfl
